import Mathlib

/-!
Shallow embedding of the chain-adaptation core of the `hyperlane-tron`
connector crate, together with theorems settling the spec claims about it.

Source files embedded (paths relative to the crate root `src/`):
  * `address.rs`                     — address codec (UniversalId / native Tron)
  * `contracts/utils.rs`             — finality resolution, transaction submission,
                                        by-transaction-hash log fetch
  * `contracts/mailbox.rs`           — mailbox indexer (range fetch, sequence/tip)
  * `contracts/validator_announce.rs`— validator announce facade

Machine integers are modelled as `Nat`; a byte string is a `List Nat`.
Fallible Rust paths return `Option`/`Except`; a Rust `unwrap` panic is a
distinct explicit outcome constructor, never identified with an error return.
Asynchronous RPC round-trips are modelled by an explicit provider state whose
fields carry the response of each endpoint (`Option` = transport failure), and
write paths additionally return the list of RPC calls that were issued.
-/

/-- Byte strings (each entry one byte value). -/
abbrev Bytes := List Nat

/-- Native Tron account address: 21 raw bytes (`heliosphere_core::Address`,
an external crate; the payload of the newtype in `address.rs`). -/
structure Address where
  bytes : Bytes
deriving DecidableEq, Repr

/-- Modelled from the spec: `heliosphere_core::Address::new` is external-crate
code, the "checksum/format validation intrinsic to the native encoding" of
the spec. A raw Tron address is exactly 21 bytes and begins with the 0x41
network byte; `new` rejects anything else. Note that it sees only the 21
bytes handed to it. -/
def Address.new (bytes : Bytes) : Option Address :=
  if bytes.length = 21 ∧ bytes.head? = some 65 then some ⟨bytes⟩ else none

/-- The connector newtype over the native address (`TronAddress` in
`address.rs`). -/
structure TronAddress where
  toAddress : Address
deriving DecidableEq, Repr

/-- `impl TryFrom<H256> for TronAddress` (`address.rs` lines 23-33):
copies `value[11..]` (the low-order 21 bytes of the 32-byte identifier)
into a fresh buffer and validates it with `Address::new`. The 11 high-order
bytes are never inspected. -/
def TronAddress.tryFrom (value : Bytes) : Option TronAddress :=
  (Address.new (value.drop 11)).map TronAddress.mk

/-- `impl From<TronAddress> for H256` (`address.rs` lines 35-42): writes the
21 native bytes into positions 11..32 of a zero-initialized 32-byte buffer. -/
def TronAddress.toH256 (value : TronAddress) : Bytes :=
  List.replicate 11 0 ++ value.toAddress.bytes

/-- C3: for every valid 21-byte native Tron address, encoding it into the
32-byte identifier (11 zero bytes then the native bytes) and decoding back
yields exactly the original address. -/
theorem decode_encode_roundtrip (a : TronAddress)
    (hlen : a.toAddress.bytes.length = 21)
    (hpre : a.toAddress.bytes.head? = some 65) :
    TronAddress.tryFrom (TronAddress.toH256 a) = some a := by
  unfold TronAddress.tryFrom TronAddress.toH256
  have hdrop : (List.replicate 11 0 ++ a.toAddress.bytes).drop 11 = a.toAddress.bytes := by
    have h11 : (List.replicate 11 (0 : Nat)).length = 11 := by simp
    calc (List.replicate 11 0 ++ a.toAddress.bytes).drop 11
        = (List.replicate 11 0 ++ a.toAddress.bytes).drop
            (List.replicate 11 (0 : Nat)).length := by rw [h11]
      _ = a.toAddress.bytes := List.drop_left _ _
  rw [hdrop]
  unfold Address.new
  rw [if_pos ⟨hlen, hpre⟩]
  rfl

/-- Witness for C3 at a concrete address (0x41 followed by 20 zero bytes). -/
theorem decode_encode_roundtrip_witness :
    TronAddress.tryFrom (TronAddress.toH256 ⟨⟨65 :: List.replicate 20 0⟩⟩) =
      some ⟨⟨65 :: List.replicate 20 0⟩⟩ :=
  decode_encode_roundtrip ⟨⟨65 :: List.replicate 20 0⟩⟩ (by decide) (by decide)

/-- C1 counterexample: a 32-byte identifier whose padding byte at position 0
equals 1 (nonzero) and whose low-order 21 bytes form a valid native address
decodes successfully — the nonzero padding byte is silently discarded, it
does not make decoding fail as the claim states. -/
theorem decode_accepts_nonzero_padding :
    TronAddress.tryFrom ((1 :: List.replicate 10 0) ++ (65 :: List.replicate 20 0)) =
      some ⟨⟨65 :: List.replicate 20 0⟩⟩ := by decide

/-- C1 (amended): decoding never inspects the 11 high-order padding bytes.
For every 11-byte padding block — zero or not — followed by a valid native
address, decoding succeeds and returns that address; decoding depends only
on the low-order 21 bytes. -/
theorem decode_ignores_padding (padding : Bytes) (a : TronAddress)
    (hpad : padding.length = 11)
    (hlen : a.toAddress.bytes.length = 21)
    (hpre : a.toAddress.bytes.head? = some 65) :
    TronAddress.tryFrom (padding ++ a.toAddress.bytes) = some a := by
  unfold TronAddress.tryFrom
  have hdrop : (padding ++ a.toAddress.bytes).drop 11 = a.toAddress.bytes := by
    calc (padding ++ a.toAddress.bytes).drop 11
        = (padding ++ a.toAddress.bytes).drop padding.length := by rw [hpad]
      _ = a.toAddress.bytes := List.drop_left _ _
  rw [hdrop]
  unfold Address.new
  rw [if_pos ⟨hlen, hpre⟩]
  rfl

/-- Witness for the amended C1 at an all-ones padding block. -/
theorem decode_ignores_padding_witness :
    TronAddress.tryFrom (List.replicate 11 1 ++ (65 :: List.replicate 20 0)) =
      some ⟨⟨65 :: List.replicate 20 0⟩⟩ :=
  decode_ignores_padding (List.replicate 11 1) ⟨⟨65 :: List.replicate 20 0⟩⟩
    (by decide) (by decide) (by decide)

/-- Connector-internal error kind (`error.rs`, `HyperlaneTronError`). -/
inductive HyperlaneTronError where
  | coreError
  | signatureError
  | clientError
  | providerError
  | abiError
deriving DecidableEq, Repr

/-- Framework-level chain-communication error (`hyperlane_core`): either the
dedicated signer-unavailable kind or a wrapped connector error
(`ChainCommunicationError::from_other`, `error.rs` lines 32-36). -/
inductive ChainCommunicationError where
  | signerUnavailable
  | fromOther (e : HyperlaneTronError)
deriving DecidableEq, Repr

/-- Reorg policy (`hyperlane_core::ReorgPeriod`): none / fixed block lag /
named finality tag. -/
inductive ReorgPeriod where
  | none
  | blocks (lag : Nat)
  | tag (t : String)
deriving DecidableEq, Repr

/-- State of the RPC provider as seen by one call sequence: the response each
endpoint would give (`Option.none` models a transport failure), plus the
outcome of the signing step. `nonceAt h` is the mailbox nonce given by an
`eth_call` pinned at block height `h`. -/
structure TronProvider where
  latestBlock : Option Nat
  finalizedBlock : Option Nat
  energyFee : Option Nat
  triggerContract : Option Nat
  signOk : Bool
  broadcastResult : Option Nat
  confirmOk : Bool
  nonceAt : Nat → Option Nat

/-- Outcome of `get_finalized_block_number` (`contracts/utils.rs` lines
35-62). The function returns `ChainResult<u32>` but converts the resolved
`u64` with `try_into().unwrap()`, so a height that does not fit `u32` is a
panic, a distinct outcome from an error return. -/
inductive ChainHeightResult where
  | ok (height : Nat)
  | err (e : ChainCommunicationError)
  | panicked
deriving DecidableEq, Repr

/-- The `match` on the reorg period (`contracts/utils.rs` lines 39-59):
resolves the raw `u64` height. `None` and `Blocks` both read the latest
block; `Blocks(lag)` then applies `saturating_sub` (which is `Nat`
subtraction here); `Tag` reads the dedicated solidified-block endpoint.
RPC failures map into the wrapped chain-communication error. -/
def resolveReorgNumber (provider : TronProvider) (reorgPeriod : ReorgPeriod) :
    Except ChainCommunicationError Nat :=
  match reorgPeriod with
  | ReorgPeriod.none =>
    match provider.latestBlock with
    | Option.none => .error (.fromOther .clientError)
    | some block => .ok block
  | ReorgPeriod.blocks lag =>
    match provider.latestBlock with
    | Option.none => .error (.fromOther .clientError)
    | some block => .ok (block - lag)
  | ReorgPeriod.tag _ =>
    match provider.finalizedBlock with
    | Option.none => .error (.fromOther .clientError)
    | some block => .ok block

/-- Largest value representable in the framework 32-bit height type. -/
def u32Max : Nat := 4294967295

/-- `get_finalized_block_number` (`contracts/utils.rs` lines 35-62): resolve
the raw height, then `Ok(number.try_into().unwrap())` — heights above
`u32::MAX` panic on the `unwrap`. -/
def get_finalized_block_number (provider : TronProvider) (reorgPeriod : ReorgPeriod) :
    ChainHeightResult :=
  match resolveReorgNumber provider reorgPeriod with
  | .error e => .err e
  | .ok number => if number ≤ u32Max then .ok number else .panicked

/-- C2 counterexample: with the latest block at `u32::MAX + 1 = 4294967296`
and the trivial reorg policy, `get_finalized_block_number` panics on the
`unwrap` instead of returning an error — there is no `HeightOverflow`
variant in the error type at all. -/
theorem height_overflow_panics :
    get_finalized_block_number
      { latestBlock := some 4294967296, finalizedBlock := some 0,
        energyFee := Option.none, triggerContract := Option.none,
        signOk := false, broadcastResult := Option.none, confirmOk := false,
        nonceAt := fun _ => Option.none }
      ReorgPeriod.none = ChainHeightResult.panicked := by
  rfl

/-- C2 (amended): whenever the height resolution succeeds with value `n`,
the function returns `Ok(n)` exactly when `n` fits the 32-bit height type
and otherwise panics on the `unwrap`; in neither case does it surface the
overflow as an error return. -/
theorem get_finalized_block_number_overflow (provider : TronProvider)
    (reorgPeriod : ReorgPeriod) (n : Nat)
    (hres : resolveReorgNumber provider reorgPeriod = .ok n) :
    (n ≤ u32Max →
      get_finalized_block_number provider reorgPeriod = ChainHeightResult.ok n) ∧
    (u32Max < n →
      get_finalized_block_number provider reorgPeriod = ChainHeightResult.panicked) ∧
    (∀ e, get_finalized_block_number provider reorgPeriod ≠ ChainHeightResult.err e) := by
  refine ⟨fun hfit => ?_, fun hover => ?_, fun e => ?_⟩
  · simp [get_finalized_block_number, hres, hfit]
  · simp [get_finalized_block_number, hres, Nat.not_le.mpr hover]
  · simp only [get_finalized_block_number, hres]
    by_cases hfit : n ≤ u32Max
    · simp [hfit]
    · simp [hfit]

/-- Witness for the amended C2 at a height that fits and at one that
overflows. -/
theorem get_finalized_block_number_overflow_witness :
    (get_finalized_block_number
      { latestBlock := some 7, finalizedBlock := some 0,
        energyFee := Option.none, triggerContract := Option.none,
        signOk := false, broadcastResult := Option.none, confirmOk := false,
        nonceAt := fun _ => Option.none }
      ReorgPeriod.none = ChainHeightResult.ok 7) ∧
    (get_finalized_block_number
      { latestBlock := some 4294967296, finalizedBlock := some 0,
        energyFee := Option.none, triggerContract := Option.none,
        signOk := false, broadcastResult := Option.none, confirmOk := false,
        nonceAt := fun _ => Option.none }
      (ReorgPeriod.tag "finalized") ≠
        ChainHeightResult.err ChainCommunicationError.signerUnavailable) := by
  constructor
  · exact (get_finalized_block_number_overflow
      { latestBlock := some 7, finalizedBlock := some 0,
        energyFee := Option.none, triggerContract := Option.none,
        signOk := false, broadcastResult := Option.none, confirmOk := false,
        nonceAt := fun _ => Option.none }
      ReorgPeriod.none 7 rfl).1 (by decide)
  · exact (get_finalized_block_number_overflow
      { latestBlock := some 4294967296, finalizedBlock := some 0,
        energyFee := Option.none, triggerContract := Option.none,
        signOk := false, broadcastResult := Option.none, confirmOk := false,
        nonceAt := fun _ => Option.none }
      (ReorgPeriod.tag "finalized") 0 rfl).2.2
        ChainCommunicationError.signerUnavailable

/-- C4: under the fixed-lag policy `Blocks(lag)` with the head at `head`,
height resolution returns exactly `max 0 (head - lag)` computed in the
integers (the `saturating_sub` of `contracts/utils.rs` line 49), and in
particular returns 0 whenever the lag reaches or exceeds the head. -/
theorem fixed_lag_saturates (provider : TronProvider) (head lag : Nat)
    (hhead : provider.latestBlock = some head) :
    resolveReorgNumber provider (ReorgPeriod.blocks lag) =
      .ok (Int.toNat (max 0 ((head : Int) - (lag : Int)))) ∧
    (head ≤ lag → resolveReorgNumber provider (ReorgPeriod.blocks lag) = .ok 0) := by
  have hval : Int.toNat (max 0 ((head : Int) - (lag : Int))) = head - lag := by
    omega
  constructor
  · simp [resolveReorgNumber, hhead, hval]
  · intro hle
    simp [resolveReorgNumber, hhead]
    omega

/-- Witness for C4: head 100 with lag 5 resolves to 95, and head 3 with
lag 5 saturates to 0. -/
theorem fixed_lag_saturates_witness :
    (resolveReorgNumber
      { latestBlock := some 100, finalizedBlock := Option.none,
        energyFee := Option.none, triggerContract := Option.none,
        signOk := false, broadcastResult := Option.none, confirmOk := false,
        nonceAt := fun _ => Option.none }
      (ReorgPeriod.blocks 5) = .ok 95) ∧
    (resolveReorgNumber
      { latestBlock := some 3, finalizedBlock := Option.none,
        energyFee := Option.none, triggerContract := Option.none,
        signOk := false, broadcastResult := Option.none, confirmOk := false,
        nonceAt := fun _ => Option.none }
      (ReorgPeriod.blocks 5) = .ok 0) := by
  constructor
  · have h := (fixed_lag_saturates
      { latestBlock := some 100, finalizedBlock := Option.none,
        energyFee := Option.none, triggerContract := Option.none,
        signOk := false, broadcastResult := Option.none, confirmOk := false,
        nonceAt := fun _ => Option.none } 100 5 rfl).1
    simpa using h
  · exact (fixed_lag_saturates
      { latestBlock := some 3, finalizedBlock := Option.none,
        energyFee := Option.none, triggerContract := Option.none,
        signOk := false, broadcastResult := Option.none, confirmOk := false,
        nonceAt := fun _ => Option.none } 3 5 rfl).2 (by decide)

/-- Log position metadata attached to each decoded event
(`hyperlane_core::LogMeta`, produced from the ethers log). -/
structure LogMeta where
  blockNumber : Nat
  txHash : Nat
  logIndex : Nat
deriving DecidableEq, Repr

/-- The framework message type as far as the connector uses it: the indexer
sorts by the intrinsic `nonce` field. Decoding raw bytes into this shape
(`HyperlaneMessage::from`) is framework code and is kept abstract: range
fetching below is parameterized by the decoder. -/
structure HyperlaneMessage where
  nonce : Nat
  body : Bytes
deriving DecidableEq, Repr

/-- One raw `Dispatch` event as returned by the log query
(`DispatchFilter`); the connector only reads its `message` bytes. -/
structure DispatchEvent where
  message : Bytes
deriving DecidableEq, Repr

/-- `TronMailboxIndexer::fetch_logs_in_range` for dispatch events
(`contracts/mailbox.rs` lines 57-79): map each raw log to its decoded
message paired with its log position, then
`events.sort_by(|a, b| a.0.inner().nonce.cmp(&b.0.inner().nonce))` —
a stable sort by ascending nonce, modelled by `List.mergeSort`.
`rawLogs` is whatever the provider returned for the queried range, in
whatever order it arrived. -/
def fetch_logs_in_range (decodeMessage : Bytes → HyperlaneMessage)
    (rawLogs : List (DispatchEvent × LogMeta)) : List (HyperlaneMessage × LogMeta) :=
  (rawLogs.map (fun el => (decodeMessage el.1.message, el.2))).mergeSort
    (fun a b => decide (a.1.nonce ≤ b.1.nonce))

/-- C5: for every raw log batch, in whatever order the provider returned it,
the range fetch returns exactly the decoded records (a permutation of the
per-log decodings) sorted by ascending message nonce. -/
theorem fetch_logs_in_range_sorted (decodeMessage : Bytes → HyperlaneMessage)
    (rawLogs : List (DispatchEvent × LogMeta)) :
    (fetch_logs_in_range decodeMessage rawLogs).Pairwise
      (fun a b => a.1.nonce ≤ b.1.nonce) ∧
    (fetch_logs_in_range decodeMessage rawLogs).Perm
      (rawLogs.map (fun el => (decodeMessage el.1.message, el.2))) := by
  constructor
  · have hsorted := @List.sorted_mergeSort (HyperlaneMessage × LogMeta)
      (fun a b => decide (a.1.nonce ≤ b.1.nonce))
      (fun a b c hab hbc => by
        simp only [decide_eq_true_eq] at hab hbc ⊢
        exact le_trans hab hbc)
      (fun a b => by
        simp only [Bool.or_eq_true, decide_eq_true_eq]
        exact Nat.le_total a.1.nonce b.1.nonce)
      (rawLogs.map (fun el => (decodeMessage el.1.message, el.2)))
    exact hsorted.imp (fun h => by simpa using h)
  · exact List.mergeSort_perm _ _

/-- One raw log from a transaction receipt (`ethers` log as consumed in
`fetch_raw_logs_and_meta`): the emitting contract address, the ABI topics
and data handed to the event decoder, and the extracted log position. -/
structure TronLog where
  address : Nat
  topics : List Bytes
  data : Bytes
  meta : LogMeta
deriving DecidableEq, Repr

/-- `fetch_raw_logs_and_meta` (`contracts/utils.rs` lines 122-154): a missing
receipt is the invalid-transaction-id error; otherwise each receipt log is
dropped when its emitting address differs from the target contract, and kept
when the event decoder accepts its topics and data. The decoder
(`T::decode_log`, ethers ABI machinery) is kept abstract as a parameter. -/
def fetch_raw_logs_and_meta {T : Type} (decodeLog : List Bytes → Bytes → Option T)
    (contractAddress : Nat) (receipt : Option (List TronLog)) :
    Except HyperlaneTronError (List (T × LogMeta)) :=
  match receipt with
  | Option.none => .error .coreError
  | some receiptLogs =>
    .ok (receiptLogs.filterMap (fun log =>
      if log.address ≠ contractAddress then Option.none
      else (decodeLog log.topics log.data).map (fun ev => (ev, log.meta))))

/-- C6: the by-transaction-hash fetch keeps only logs emitted by the target
contract. Dropping every foreign log from the receipt first does not change
the result, and every returned record decodes from some receipt log whose
emitting address is the target contract. -/
theorem fetch_by_tx_filters_foreign {T : Type}
    (decodeLog : List Bytes → Bytes → Option T)
    (contractAddress : Nat) (receiptLogs : List TronLog) :
    fetch_raw_logs_and_meta decodeLog contractAddress (some receiptLogs) =
      fetch_raw_logs_and_meta decodeLog contractAddress
        (some (receiptLogs.filter (fun log => log.address == contractAddress))) ∧
    (∀ (result : List (T × LogMeta)) (r : T × LogMeta),
      fetch_raw_logs_and_meta decodeLog contractAddress (some receiptLogs) = .ok result →
      r ∈ result →
      ∃ log, log ∈ receiptLogs ∧ log.address = contractAddress ∧
        decodeLog log.topics log.data = some r.1 ∧ r.2 = log.meta) := by
  constructor
  · simp only [fetch_raw_logs_and_meta]
    rw [List.filterMap_filter]
    refine congrArg Except.ok (List.filterMap_congr ?_)
    intro log _
    by_cases haddr : log.address = contractAddress
    · simp [haddr]
    · simp [haddr]
  · intro result r hres hmem
    simp only [fetch_raw_logs_and_meta, Except.ok.injEq] at hres
    subst hres
    rcases List.mem_filterMap.mp hmem with ⟨log, hlog, hsome⟩
    by_cases haddr : log.address = contractAddress
    · rw [if_neg (by simp [haddr])] at hsome
      rcases Option.map_eq_some'.mp hsome with ⟨ev, hdec, heq⟩
      subst heq
      exact ⟨log, hlog, haddr, hdec, rfl⟩
    · rw [if_pos (by simp [haddr])] at hsome
      exact absurd hsome (by simp)

/-- Witness for C6: a receipt interleaving a foreign log (address 9) between
two logs of the target contract (address 5), with a decoder reading the
first data byte. -/
theorem fetch_by_tx_filters_foreign_witness :
    (fetch_raw_logs_and_meta (fun _ d => d.head?) 5
      (some [⟨5, [], [10], ⟨1, 1, 0⟩⟩, ⟨9, [], [99], ⟨1, 1, 1⟩⟩, ⟨5, [], [20], ⟨1, 1, 2⟩⟩]) =
      fetch_raw_logs_and_meta (fun _ d => d.head?) 5
        (some ([⟨5, [], [10], ⟨1, 1, 0⟩⟩, ⟨9, [], [99], ⟨1, 1, 1⟩⟩,
                ⟨5, [], [20], ⟨1, 1, 2⟩⟩].filter (fun log => log.address == 5)))) ∧
    (∃ log, log ∈ [(⟨5, [], [10], ⟨1, 1, 0⟩⟩ : TronLog), ⟨9, [], [99], ⟨1, 1, 1⟩⟩,
        ⟨5, [], [20], ⟨1, 1, 2⟩⟩] ∧ log.address = 5 ∧
      (fun (_ : List Bytes) (d : Bytes) => d.head?) log.topics log.data =
        some ((10 : Nat), (⟨1, 1, 0⟩ : LogMeta)).1 ∧
      ((10 : Nat), (⟨1, 1, 0⟩ : LogMeta)).2 = log.meta) := by
  constructor
  · exact (fetch_by_tx_filters_foreign (fun _ d => d.head?) 5
      [⟨5, [], [10], ⟨1, 1, 0⟩⟩, ⟨9, [], [99], ⟨1, 1, 1⟩⟩, ⟨5, [], [20], ⟨1, 1, 2⟩⟩]).1
  · exact (fetch_by_tx_filters_foreign (fun _ d => d.head?) 5
      [⟨5, [], [10], ⟨1, 1, 0⟩⟩, ⟨9, [], [99], ⟨1, 1, 1⟩⟩, ⟨5, [], [20], ⟨1, 1, 2⟩⟩]).2
      [(10, ⟨1, 1, 0⟩), (20, ⟨1, 1, 2⟩)] (10, ⟨1, 1, 0⟩) (by rfl) (by simp)

/-- The RPC calls a write path can issue, in the order `send_transaction`
makes them (`contracts/utils.rs` lines 80-120). -/
inductive RpcCallKind where
  | getEnergyFee
  | triggerContract
  | broadcastTransaction
  | awaitConfirmation
deriving DecidableEq, Repr

/-- Configured signer (`signer.rs`); only its caller identity matters to the
embedding, signing itself is the `signOk` field of the provider state. -/
structure Signer where
  callerAddress : Nat
deriving DecidableEq, Repr

/-- Normalized transaction outcome (`hyperlane_core::TxOutcome` as built in
`send_transaction`). -/
structure TxOutcome where
  transactionId : Nat
  executed : Bool
  gasUsed : Nat
  gasPrice : Nat
deriving DecidableEq, Repr

/-- Continuation of `send_transaction` after the fee-limit computation
(`contracts/utils.rs` lines 102-119): build the native transaction via
`trigger_contract`, sign it, broadcast it, then poll confirmation —
`await_confirmation(txid).await.is_ok()` only flips the `executed` flag,
it never fails the call. Gas fields are hardcoded to zero (`// TODO:
calculate gas`). `trace` accumulates the RPC calls issued so far. -/
def send_transaction_steps (provider : TronProvider) (_feeLimit : Option Nat)
    (trace : List RpcCallKind) :
    Except HyperlaneTronError TxOutcome × List RpcCallKind :=
  match provider.triggerContract with
  | Option.none => (.error .clientError, trace ++ [RpcCallKind.triggerContract])
  | some _tx =>
    if provider.signOk then
      match provider.broadcastResult with
      | Option.none =>
        (.error .clientError,
          trace ++ [RpcCallKind.triggerContract, RpcCallKind.broadcastTransaction])
      | some txid =>
        (.ok { transactionId := txid, executed := provider.confirmOk,
               gasUsed := 0, gasPrice := 0 },
          trace ++ [RpcCallKind.triggerContract, RpcCallKind.broadcastTransaction,
                    RpcCallKind.awaitConfirmation])
    else (.error .signatureError, trace ++ [RpcCallKind.triggerContract])

/-- `send_transaction` (`contracts/utils.rs` lines 80-120): with an energy
limit supplied, first query the dynamic energy fee and multiply to get the
fee limit; then run the build/sign/broadcast/confirm sequence. -/
def send_transaction (provider : TronProvider) (_signer : Signer)
    (energyLimit : Option Nat) :
    Except HyperlaneTronError TxOutcome × List RpcCallKind :=
  match energyLimit with
  | Option.none => send_transaction_steps provider Option.none []
  | some limit =>
    match provider.energyFee with
    | Option.none => (.error .clientError, [RpcCallKind.getEnergyFee])
    | some price =>
      send_transaction_steps provider (some (limit * price)) [RpcCallKind.getEnergyFee]

/-- `TronMailbox::process` (`contracts/mailbox.rs` lines 233-253): the signer
check comes first — `ok_or(ChainCommunicationError::SignerUnavailable)?` —
before anything else runs; only then is `send_transaction` entered. -/
def TronMailbox.process (signer : Option Signer) (provider : TronProvider)
    (txGasLimit : Option Nat) :
    Except ChainCommunicationError TxOutcome × List RpcCallKind :=
  match signer with
  | Option.none => (.error .signerUnavailable, [])
  | some s =>
    match send_transaction provider s txGasLimit with
    | (.ok outcome, trace) => (.ok outcome, trace)
    | (.error e, trace) => (.error (.fromOther e), trace)

/-- `TronValidatorAnnounce::announce` (`contracts/validator_announce.rs`
lines 80-101): same fail-fast signer check, then `send_transaction` with no
energy limit. -/
def TronValidatorAnnounce.announce (signer : Option Signer)
    (provider : TronProvider) :
    Except ChainCommunicationError TxOutcome × List RpcCallKind :=
  match signer with
  | Option.none => (.error .signerUnavailable, [])
  | some s =>
    match send_transaction provider s Option.none with
    | (.ok outcome, trace) => (.ok outcome, trace)
    | (.error e, trace) => (.error (.fromOther e), trace)

/-- C7: on a connector without a signer, both write methods return the
signer-unavailable error with an empty RPC trace — no fee query, build,
broadcast or any other network call is issued, for every provider state
and every gas limit. -/
theorem write_without_signer_no_rpc (provider : TronProvider)
    (txGasLimit : Option Nat) :
    TronMailbox.process Option.none provider txGasLimit =
      (.error ChainCommunicationError.signerUnavailable, []) ∧
    TronValidatorAnnounce.announce Option.none provider =
      (.error ChainCommunicationError.signerUnavailable, []) :=
  ⟨rfl, rfl⟩

/-- C8: when fee estimation (if requested), build, signing and broadcast all
succeed but the confirmation poll reports failure, `send_transaction`
returns `Ok` with `executed = false` carrying the broadcast transaction id,
and the gas cost fields are zero — as they are for every successful
outcome of `send_transaction`, confirmed or not. -/
theorem unconfirmed_tx_not_an_error (provider : TronProvider) (signer : Signer)
    (energyLimit : Option Nat) (tx txid : Nat)
    (hfee : energyLimit = Option.none ∨ provider.energyFee.isSome = true)
    (htrigger : provider.triggerContract = some tx)
    (hsign : provider.signOk = true)
    (hbroadcast : provider.broadcastResult = some txid)
    (hconfirm : provider.confirmOk = false) :
    (send_transaction provider signer energyLimit).1 =
      .ok { transactionId := txid, executed := false, gasUsed := 0, gasPrice := 0 } ∧
    (∀ (q : TronProvider) (s : Signer) (el : Option Nat) (outcome : TxOutcome),
      (send_transaction q s el).1 = .ok outcome →
      outcome.gasUsed = 0 ∧ outcome.gasPrice = 0) := by
  constructor
  · have hsteps : ∀ (fl : Option Nat) (tr : List RpcCallKind),
        (send_transaction_steps provider fl tr).1 =
          .ok { transactionId := txid, executed := false, gasUsed := 0, gasPrice := 0 } := by
      intro fl tr
      simp [send_transaction_steps, htrigger, hsign, hbroadcast, hconfirm]
    rcases hfee with hnone | hsome
    · subst hnone
      simpa [send_transaction] using hsteps Option.none []
    · rcases Option.isSome_iff_exists.mp hsome with ⟨price, hprice⟩
      rcases energyLimit with _ | limit
      · simpa [send_transaction] using hsteps Option.none []
      · simp only [send_transaction, hprice]
        exact hsteps (some (limit * price)) [RpcCallKind.getEnergyFee]
  · intro q s el outcome hok
    have hsteps : ∀ (fl : Option Nat) (tr : List RpcCallKind),
        (send_transaction_steps q fl tr).1 = .ok outcome →
        outcome.gasUsed = 0 ∧ outcome.gasPrice = 0 := by
      intro fl tr h
      rcases htc : q.triggerContract with _ | tx2
      · simp [send_transaction_steps, htc] at h
      · by_cases hs : q.signOk
        · rcases hbc : q.broadcastResult with _ | txid2
          · simp [send_transaction_steps, htc, hs, hbc] at h
          · have hv : (send_transaction_steps q fl tr).1 =
                .ok { transactionId := txid2, executed := q.confirmOk,
                      gasUsed := 0, gasPrice := 0 } := by
              simp [send_transaction_steps, htc, hs, hbc]
            rw [hv] at h
            have h2 := Except.ok.inj h
            rw [← h2]
            exact ⟨rfl, rfl⟩
        · simp [send_transaction_steps, htc, hs] at h
    rcases el with _ | limit
    · exact hsteps Option.none [] (by simpa [send_transaction] using hok)
    · rcases hq : q.energyFee with _ | price
      · simp [send_transaction, hq] at hok
      · exact hsteps (some (limit * price)) [RpcCallKind.getEnergyFee]
          (by simpa [send_transaction, hq] using hok)

/-- Witness for C8: a provider whose broadcast succeeds with id 42 but whose
confirmation poll fails, with no energy limit supplied. -/
theorem unconfirmed_tx_not_an_error_witness :
    (send_transaction
      { latestBlock := Option.none, finalizedBlock := Option.none,
        energyFee := Option.none, triggerContract := some 1,
        signOk := true, broadcastResult := some 42, confirmOk := false,
        nonceAt := fun _ => Option.none }
      ⟨7⟩ Option.none).1 =
      .ok { transactionId := 42, executed := false, gasUsed := 0, gasPrice := 0 } :=
  (unconfirmed_tx_not_an_error
    { latestBlock := Option.none, finalizedBlock := Option.none,
      energyFee := Option.none, triggerContract := some 1,
      signOk := true, broadcastResult := some 42, confirmOk := false,
      nonceAt := fun _ => Option.none }
    ⟨7⟩ Option.none 1 42 (Or.inl rfl) rfl rfl rfl rfl).1

/-- Outcome of `latest_sequence_count_and_tip` (`contracts/mailbox.rs`): an
optional sequence count with the tip height, an error return, or the panic
inherited from the height conversion. -/
inductive SeqTipResult where
  | ok (sequence : Option Nat) (tip : Nat)
  | err (e : ChainCommunicationError)
  | panicked
deriving DecidableEq, Repr

/-- `SequenceAwareIndexer<HyperlaneMessage>::latest_sequence_count_and_tip`
(`contracts/mailbox.rs` lines 106-115): resolve the finalized tip, then read
the mailbox `nonce()` with the call pinned at that block height
(`.block(u64::from(tip))`), and return `(Some(sequence), tip)`. A failing
nonce call surfaces as a chain-communication error. -/
def latest_sequence_count_and_tip_messages (provider : TronProvider)
    (reorgPeriod : ReorgPeriod) : SeqTipResult :=
  match get_finalized_block_number provider reorgPeriod with
  | .err e => .err e
  | .panicked => .panicked
  | .ok tip =>
    match provider.nonceAt tip with
    | Option.none => .err (.fromOther .providerError)
    | some sequence => .ok (some sequence) tip

/-- `SequenceAwareIndexer<H256>::latest_sequence_count_and_tip`
(`contracts/mailbox.rs` lines 143-151): the delivery-id event kind has no
on-chain counter; only the tip is resolved and the sequence is `None`. -/
def latest_sequence_count_and_tip_h256 (provider : TronProvider)
    (reorgPeriod : ReorgPeriod) : SeqTipResult :=
  match get_finalized_block_number provider reorgPeriod with
  | .err e => .err e
  | .panicked => .panicked
  | .ok tip => .ok Option.none tip

/-- C9: when the finalized tip resolves to `tip` and the pinned-state nonce
read at `tip` yields `sequence`, the message-dispatch variant returns
`(Some sequence, tip)`, while the delivery-id variant returns `(None, tip)`
— absent, not zero. -/
theorem latest_sequence_count_and_tip_spec (provider : TronProvider)
    (reorgPeriod : ReorgPeriod) (tip sequence : Nat)
    (htip : get_finalized_block_number provider reorgPeriod = ChainHeightResult.ok tip)
    (hnonce : provider.nonceAt tip = some sequence) :
    latest_sequence_count_and_tip_messages provider reorgPeriod =
      SeqTipResult.ok (some sequence) tip ∧
    latest_sequence_count_and_tip_h256 provider reorgPeriod =
      SeqTipResult.ok Option.none tip := by
  constructor
  · simp [latest_sequence_count_and_tip_messages, htip, hnonce]
  · simp [latest_sequence_count_and_tip_h256, htip]

/-- Witness for C9: head at 50 under the trivial policy, with the pinned
nonce at height 50 equal to 12. -/
theorem latest_sequence_count_and_tip_spec_witness :
    latest_sequence_count_and_tip_messages
      { latestBlock := some 50, finalizedBlock := Option.none,
        energyFee := Option.none, triggerContract := Option.none,
        signOk := false, broadcastResult := Option.none, confirmOk := false,
        nonceAt := fun _ => some 12 }
      ReorgPeriod.none = SeqTipResult.ok (some 12) 50 :=
  (latest_sequence_count_and_tip_spec
    { latestBlock := some 50, finalizedBlock := Option.none,
      energyFee := Option.none, triggerContract := Option.none,
      signOk := false, broadcastResult := Option.none, confirmOk := false,
      nonceAt := fun _ => some 12 }
    ReorgPeriod.none 50 12 rfl rfl).1

/-- `H160::from(H256)` as used by
`TronValidatorAnnounce::get_announced_storage_locations`
(`contracts/validator_announce.rs` line 69): keep the low-order 20 bytes of
the 32-byte identifier, dropping the 12 high-order bytes without any check. -/
def h160FromH256 (value : Bytes) : Bytes :=
  value.drop 12

/-- `get_announced_storage_locations` (`contracts/validator_announce.rs`
lines 65-77): map every 32-byte validator identifier through the `H160`
truncation and hand the truncated list to the contract query; the query
itself (ABI call and response) is kept abstract as a parameter. -/
def get_announced_storage_locations
    (queryContract : List Bytes → Option (List (List String)))
    (validators : List Bytes) :
    Except ChainCommunicationError (List (List String)) :=
  match queryContract (validators.map h160FromH256) with
  | Option.none => .error (.fromOther .providerError)
  | some locations => .ok locations

/-- C10: the validator identifiers reach the contract only through the
low-order-20-byte truncation: two validator lists that agree after dropping
the 12 high-order bytes of each entry — in particular lists differing only
in those high bytes — produce the same query and the same result, whatever
the contract answers. -/
theorem validators_truncated_to_h160
    (queryContract : List Bytes → Option (List (List String)))
    (vs ws : List Bytes)
    (hlow : vs.map (fun v => v.drop 12) = ws.map (fun v => v.drop 12)) :
    get_announced_storage_locations queryContract vs =
      get_announced_storage_locations queryContract ws := by
  unfold get_announced_storage_locations
  have hmap : vs.map h160FromH256 = ws.map h160FromH256 := by
    simpa [h160FromH256] using hlow
  rw [hmap]

/-- Witness for C10: two 32-byte identifiers that differ only in their first
(high-order) byte are sent to the contract as the same validator. -/
theorem validators_truncated_to_h160_witness :
    get_announced_storage_locations (fun _ => some [[]] )
      [1 :: List.replicate 31 0] =
      get_announced_storage_locations (fun _ => some [[]] )
        [2 :: List.replicate 31 0] :=
  validators_truncated_to_h160 (fun _ => some [[]])
    [1 :: List.replicate 31 0] [2 :: List.replicate 31 0] (by decide)
